import Mathlib

/-!
# Verification of the Streamy stream-session controller (src/streamy.py)

Shallow embedding of the parts of streamy.py that the specification talks
about: the recent-source config store (PrinterConfig), the snapshot naming
scheme (get_next_snapshot_number / take_snapshot), and the stream session
controller (StreamyApp.connect_to_camera / disconnect_camera / update_frame /
show_temporary_status / reset_status).

Modelling conventions:
- Python strings are Lean String; machine ints do not occur (snapshot numbers
  are unbounded Python ints, modelled as Nat).
- The external cv2.VideoCapture capability is a parameter (CameraEnv): whether
  opening a given URL succeeds and what the probe read returns.
- GUI side effects are modelled as fields of an explicit AppState record
  (status label text, status indicator color, displayed image, button state)
  plus an event log (timer stop / FrameSource release / FrameSource open /
  poll start) and an optional modal dialog message.
- The single-shot status timer subsystem (show_temporary_status /
  reset_status, plus direct setText calls) is modelled separately as a small
  labelled transition system on SState, since it is orthogonal to the
  session state machine.
-/

namespace Streamy

/-! ## Python str.strip, as used in connect_to_camera (line 410) -/

/-- ASCII whitespace characters stripped by Python str.strip (the model
restricts Python whitespace to its ASCII subset). -/
def pyIsSpace (c : Char) : Bool :=
  c = ' ' || c = '\t' || c = '\n' || c = '\r' || c = '\x0b' || c = '\x0c'

/-- Python str.strip(): drop leading and trailing whitespace. -/
def pyStrip (s : String) : String :=
  String.mk (((s.data.dropWhile pyIsSpace).reverse.dropWhile pyIsSpace).reverse)

/-! ## PrinterConfig.add_printer (streamy.py lines 152-169), typed view

After load_config, the three schema keys always hold values of the expected
types, so add_printer is embedded on a typed record. The raw key/value view
used by load_config / save_config is modelled further below. -/

/-- The typed content of the three schema keys of streamy_config.json. -/
structure RecentConfig where
  recent_printers : List String
  last_used_printer : String
  include_timestamp : Bool
deriving DecidableEq, Repr

/-- PrinterConfig.add_printer: guard on Python truthiness (nonempty string),
remove the first equal entry if present, insert at the front, keep the first
5, set last_used_printer.  save_config is a persistence side effect without
effect on the in-memory record. -/
def add_printer (c : RecentConfig) (ip : String) : RecentConfig :=
  if ip = "" then c
  else
    let l := if ip ∈ c.recent_printers then c.recent_printers.erase ip
             else c.recent_printers
    { c with recent_printers := (ip :: l).take 5, last_used_printer := ip }

/-! ## Snapshot naming (get_next_snapshot_number, lines 188-215, and
take_snapshot, lines 516-523) -/

def isDigitCh (c : Char) : Bool := '0' ≤ c && c ≤ '9'

/-- Value of a list of decimal digit characters (int(...) on the group). -/
def digitsVal (ds : List Char) : Nat :=
  ds.foldl (fun a c => 10 * a + (c.toNat - 48)) 0

/-- Bool test that p is a prefix of l (over characters). -/
def leadsWith : List Char → List Char → Bool
  | [], _ => true
  | _ :: _, [] => false
  | p :: ps, c :: cs => p == c && leadsWith ps cs

/-- Bool test that p is a suffix of l (over characters). -/
def trailsWith (p l : List Char) : Bool := leadsWith p.reverse l.reverse

def streamyPre : List Char := "streamy-".data

def pngSuf : List Char := ".png".data

/-- The shell pattern streamy-*.png used by glob.glob (line 193), applied to
the file name. -/
def globMatch (f : String) : Bool :=
  leadsWith streamyPre f.data && trailsWith pngSuf (f.data.drop 8)

/-- One attempt of the regular expression streamy-(\d+)\.png at the head of
the character list: the literal prefix, a maximal nonempty digit run, then
the literal .png.  Because a digit cannot match the dot, backtracking inside
the greedy digit group can never succeed, so the maximal run is faithful. -/
def matchHere (l : List Char) : Option Nat :=
  if leadsWith streamyPre l then
    let rest := l.drop 8
    let ds := rest.takeWhile isDigitCh
    if !ds.isEmpty && leadsWith pngSuf (rest.drop ds.length) then
      some (digitsVal ds)
    else none
  else none

/-- re.search of streamy-(\d+)\.png: first position at which the pattern
matches, scanning left to right (line 203). -/
def reSearch : List Char → Option Nat
  | [] => none
  | c :: cs =>
    match matchHere (c :: cs) with
    | some n => some n
    | none => reSearch cs

/-- get_next_snapshot_number: glob the directory for streamy-*.png; if the
glob is empty return 1; else collect the regex groups of the matches, return
1 when none parse, else the maximum plus one.  The directory listing is the
explicit files argument. -/
def get_next_snapshot_number (files : List String) : Nat :=
  let existing := files.filter globMatch
  if existing.isEmpty then 1
  else
    let numbers := existing.filterMap (fun f => reSearch f.data)
    if numbers.isEmpty then 1
    else numbers.foldl Nat.max 0 + 1

/-- Python format spec 04d on a nonnegative int: pad with zeros on the left
to width 4, never truncate. -/
def pad4 (n : Nat) : String :=
  let s := toString n
  if s.length < 4 then String.mk (List.replicate (4 - s.length) '0') ++ s
  else s

/-- The file name built by take_snapshot (line 520). -/
def snapshot_filename (files : List String) : String :=
  "streamy-" ++ pad4 (get_next_snapshot_number files) ++ ".png"

/-- Independent reading of the claim wording: a file counts only when its
whole name matches streamy-(\d+).png, and its number is the digit group. -/
def specFileNumber (f : String) : Option Nat :=
  if leadsWith streamyPre f.data then
    let rest := f.data.drop 8
    let ds := rest.takeWhile isDigitCh
    if !ds.isEmpty && rest.drop ds.length = pngSuf then some (digitsVal ds)
    else none
  else none

/-- Index computed from the claim wording: 1 when no file matches, else the
maximum parsed group plus one. -/
def specNextIndex (files : List String) : Nat :=
  let ns := files.filterMap specFileNumber
  if ns.isEmpty then 1 else ns.foldl Nat.max 0 + 1

/-- Agreement condition between the code matching pipeline (glob filter, then
unanchored regex search) and the whole-name reading of the claim, per file. -/
def wfFile (f : String) : Prop :=
  (if globMatch f = true then reSearch f.data else none) = specFileNumber f

instance (f : String) : Decidable (wfFile f) := by
  unfold wfFile; infer_instance

/-! ## PrinterConfig.load_config / save_config (lines 121-150), raw view

The persisted record is a JSON object; it is modelled as an ordered list of
key/value pairs with first-match lookup (Python dicts have unique keys and
keep insertion order; assignment of a fresh key appends at the end).  The
value universe is representative: enough for the schema values and for
arbitrary unknown keys. -/

/-- Representative universe of JSON values for the config document. -/
inductive JValue
  | jnull
  | jbool (b : Bool)
  | jnum (n : Int)
  | jstr (s : String)
  | jstrs (l : List String)
deriving DecidableEq, Repr

/-- A parsed JSON object: ordered association list. -/
abbrev Dict := List (String × JValue)

/-- Dictionary lookup, first match. -/
def getVal : Dict → String → Option JValue
  | [], _ => none
  | (k2, v) :: d, k => if k2 = k then some v else getVal d k

/-- Python membership test key in dict. -/
def hasKey (d : Dict) (k : String) : Bool := (getVal d k).isSome

/-- default_config of load_config (lines 123-127), in source order. -/
def default_config : Dict :=
  [("recent_printers", JValue.jstrs []),
   ("last_used_printer", JValue.jstr ""),
   ("include_timestamp", JValue.jbool true)]

/-- The schema keys of the config document. -/
def schemaKeys : List String :=
  ["recent_printers", "last_used_printer", "include_timestamp"]

/-- One iteration of the back-fill loop (lines 134-136): if the key is
missing, assign it, which appends the pair at the end of the dict. -/
def ensureKey (c : Dict) (kv : String × JValue) : Dict :=
  if hasKey c kv.1 then c else c ++ [kv]

/-- The back-fill loop over the default keys in insertion order. -/
def load_backfill (d : Dict) : Dict :=
  List.foldl ensureKey d default_config

/-- load_config.  The file system state is abstracted as:
none = file missing; some none = file present but json.load raised;
some (some d) = file parsed to document d.  The except handler makes the
parse-failure case return the defaults instead of raising. -/
def load_config : Option (Option Dict) → Dict
  | none => default_config
  | some none => default_config
  | some (some d) => load_backfill d

/-- save_config: json.dump writes the whole in-memory record, so after a
successful save the file parses back to exactly that document (write errors
are caught and logged, leaving the record unchanged in memory). -/
def save_config (c : Dict) : Option (Option Dict) := some (some c)

/-! ## The stream session controller (class StreamyApp)

Observable GUI state is made explicit: the status indicator color, the
status label text, the displayed image, and whether the snapshot button is
enabled.  Each operation additionally emits an ordered event log recording
the external resource actions it performs: stopping the poll timer,
releasing the FrameSource, opening a FrameSource, starting the poll timer.
-/

/-- Colors of the StatusIndicator (class comment: RED = Error, YELLOW =
Warning/Partial connection, GREEN = Connected, GRAY = Neutral/Idle). -/
inductive Color
  | red
  | yellow
  | green
  | gray
deriving DecidableEq, Repr

/-- The ConnectionStatus enumeration of the specification. -/
inductive ConnStatus
  | Disconnected
  | Connecting
  | Connected
  | Degraded
  | Error
deriving DecidableEq, Repr

/-- Abstraction from the concrete (indicator color, label text) pair to the
ConnectionStatus of the specification.  The indicator color carries the
classification (per the StatusIndicator comments); the yellow states are
split by the label text, which distinguishes the transient Connecting state
from the degraded connected-but-not-streaming state. -/
def statusOf (c : Color) (t : String) : ConnStatus :=
  match c with
  | Color.gray => ConnStatus.Disconnected
  | Color.green => ConnStatus.Connected
  | Color.red => ConnStatus.Error
  | Color.yellow =>
    if t = "Connecting..." then ConnStatus.Connecting else ConnStatus.Degraded

/-- Image buffers that can end up in the video label: an undecorated decoded
frame (identified by a number supplied by the environment), a display copy
with a burned-in timestamp, or the constructed no-camera placeholder built
by show_no_connection_message (np.zeros plus two putText calls). -/
inductive Frame
  | video (id : Nat)
  | stampedF (id : Nat) (ts : String)
  | noConnImg
deriving DecidableEq, Repr

/-- Resource events emitted by the controller operations. -/
inductive Ev
  | stop
  | close
  | openEv
  | start
deriving DecidableEq, Repr

/-- The mutable state of StreamyApp relevant to the session state machine.
camera is the held VideoCapture handle (Option Unit: held or not),
current_frame the undecorated last frame kept for snapshots, displayed the
pixmap in the video label. -/
structure AppState where
  camera : Option Unit
  camera_url : Option String
  is_running : Bool
  current_frame : Option Nat
  frame_width : Nat
  frame_height : Nat
  status_color : Color
  status_text : String
  snapshot_enabled : Bool
  displayed : Option Frame
  recent : RecentConfig
deriving DecidableEq, Repr

/-- The external FrameSource capability: whether cv2.VideoCapture(url) opens,
what the probe read returns, and the reported frame dimensions. -/
structure CameraEnv where
  openOk : String → Bool
  firstRead : String → Option Nat
  width : String → Nat
  height : String → Nat

/-- The fixed RTSP URL convention (line 417). -/
def rtsp_url (ip : String) : String := "rtsp://" ++ ip ++ ":554/video"

/-- Error dialog for an empty address (line 413). -/
def emptyAddrMsg : String := "Please enter a printer IP address"

/-- Error dialog when the source cannot be opened (lines 439-442; text
paraphrased without punctuation marks that the development avoids). -/
def connectErrMsg (url : String) : String :=
  "Could not connect to the camera at " ++ url ++ "."

/-- Error dialog when the source opens but yields no frame (lines 450-452,
same paraphrase convention). -/
def videoErrMsg (url : String) : String :=
  "Connected to " ++ url ++ " but could not read video frames."

/-- show_no_connection_message (lines 369-377): construct the placeholder
image and display it. -/
def show_no_connection_message (s : AppState) : AppState :=
  { s with displayed := some Frame.noConnImg }

/-- disconnect_camera (lines 484-504): no-op without a held camera;
otherwise stop the poll timer, release the FrameSource, clear the session,
set the gray Not connected status, disable the snapshot button and display
the placeholder image. -/
def disconnect_camera (s : AppState) : AppState × List Ev :=
  match s.camera with
  | none => (s, [])
  | some _ =>
    (show_no_connection_message
      { s with
        is_running := false,
        camera := none,
        camera_url := none,
        status_color := Color.gray,
        status_text := "Not connected",
        snapshot_enabled := false },
     [Ev.stop, Ev.close])

/-- Result of connect_to_camera: the new state, the resource event log of
the call, and the modal dialog it raised, if any. -/
structure ConnectResult where
  state : AppState
  log : List Ev
  dialog : Option String
deriving Repr

/-- connect_to_camera (lines 408-482): strip the entered address; reject an
empty result with a dialog and no state change; otherwise show the yellow
Connecting status, tear down any held session, then open the fixed RTSP URL.
Open failure gives the red status and a dialog; a failed probe read gives
the yellow degraded status, releases the source and raises a dialog; on
success the green Connected status is set, the dimensions are recorded, the
handle and URL are stored, the address is pushed into the recent list, the
snapshot button is enabled and the poll timer starts. -/
def connect_to_camera (env : CameraEnv) (s : AppState) (raw : String) :
    ConnectResult :=
  let ip := pyStrip raw
  if ip = "" then
    { state := s, log := [], dialog := some emptyAddrMsg }
  else
    let url := rtsp_url ip
    let s1 : AppState :=
      { s with status_color := Color.yellow, status_text := "Connecting..." }
    let d := if s1.camera.isSome then disconnect_camera s1 else (s1, [])
    if env.openOk url then
      match env.firstRead url with
      | some _ =>
        { state :=
            { d.1 with
              status_color := Color.green,
              status_text := "Connected",
              frame_width := env.width url,
              frame_height := env.height url,
              camera := some (),
              camera_url := some url,
              recent := add_printer d.1.recent ip,
              snapshot_enabled := true,
              is_running := true },
          log := d.2 ++ [Ev.openEv, Ev.start],
          dialog := none }
      | none =>
        { state :=
            { d.1 with
              status_color := Color.yellow,
              status_text := "Connected but not able to stream" },
          log := d.2 ++ [Ev.openEv, Ev.close],
          dialog := some (videoErrMsg url) }
    else
      { state :=
          { d.1 with
            status_color := Color.red,
            status_text := "Not connected" },
        log := d.2,
        dialog := some (connectErrMsg url) }

/-- update_frame (lines 544-578): skipped unless running with a held camera.
The read result and the wall-clock timestamp are environmental inputs.  On a
failed read the yellow degraded status is set and then disconnect_camera is
invoked; on success the green status is restored if needed, the undecorated
frame is kept for snapshots and a stamped display copy is shown. -/
def update_frame (read : Option Nat) (ts : String) (s : AppState) :
    AppState × List Ev :=
  if !s.is_running || s.camera.isNone then (s, [])
  else
    match read with
    | none =>
      disconnect_camera
        { s with
          status_color := Color.yellow,
          status_text := "Connected but not able to stream" }
    | some f =>
      let s1 := if s.status_color ≠ Color.green then
          { s with status_color := Color.green, status_text := "Connected" }
        else s
      ({ s1 with
         current_frame := some f,
         displayed := some (Frame.stampedF f ts) }, [])

/-- The user commands of the session state machine traces. -/
inductive Call
  | connect (a : String)
  | disconnect

/-- One user command applied to the state. -/
def applyCall (env : CameraEnv) (s : AppState) : Call → AppState × List Ev
  | Call.connect a =>
    let r := connect_to_camera env s a
    (r.state, r.log)
  | Call.disconnect => disconnect_camera s

/-- A sequence of user commands, with the concatenated event log. -/
def runCalls (env : CameraEnv) (s : AppState) : List Call → AppState × List Ev
  | [] => (s, [])
  | c :: cs =>
    let p := applyCall env s c
    let q := runCalls env p.1 cs
    (q.1, p.2 ++ q.2)

/-- Number of FrameSources held at the end of a log, starting from b held
(b is 0 or 1). -/
def endBal : Nat → List Ev → Nat
  | b, [] => b
  | _, Ev.openEv :: r => endBal 1 r
  | _, Ev.close :: r => endBal 0 r
  | b, Ev.stop :: r => endBal b r
  | b, Ev.start :: r => endBal b r

/-- okFrom b log: starting from b held FrameSources, the log only ever opens
when none is held and only closes when one is held, so at every instant at
most one FrameSource is open. -/
def okFrom : Nat → List Ev → Bool
  | _, [] => true
  | b, Ev.openEv :: r => b == 0 && okFrom 1 r
  | b, Ev.close :: r => b == 1 && okFrom 0 r
  | b, Ev.stop :: r => okFrom b r
  | b, Ev.start :: r => okFrom b r

/-- Number of FrameSources a state holds. -/
def camBal (s : AppState) : Nat := if s.camera.isSome then 1 else 0

/-- The state of StreamyApp right after __init__ (no address argument). -/
def initState : AppState :=
  { camera := none,
    camera_url := none,
    is_running := false,
    current_frame := none,
    frame_width := 640,
    frame_height := 480,
    status_color := Color.gray,
    status_text := "Not connected",
    snapshot_enabled := false,
    displayed := some Frame.noConnImg,
    recent := { recent_printers := [], last_used_printer := "",
                include_timestamp := true } }

/-! ## The transient status subsystem (show_temporary_status, reset_status)

A focused model of the status label, the saved previous_status and the
single-shot status_timer, driven by three kinds of events: a transient
message (show_temporary_status, always called with duration 5000), a direct
real status change (setText calls from connect, disconnect or update_frame,
which never touch status_timer), and the passage of time. -/

/-- Status label subsystem state: current label text, saved previous status,
and the remaining delay of the single-shot timer when active. -/
structure SState where
  label : String
  previous : String
  timer : Option Nat
deriving DecidableEq, Repr

/-- Events of the status label subsystem. -/
inductive SEv
  | transient (msg : String)
  | setStatus (t : String)
  | elapse (d : Nat)

/-- show_temporary_status (lines 392-406): save the current label text as
previous_status, show the message, stop a pending timer and start a fresh
5000 ms single shot. -/
def show_temporary_status (s : SState) (msg : String) : SState :=
  { label := msg, previous := s.label, timer := some 5000 }

/-- reset_status (lines 385-390): when previous_status is truthy, write it
back into the label. -/
def reset_status (s : SState) : SState :=
  if s.previous ≠ "" then { s with label := s.previous } else s

/-- The message emitted by take_snapshot on success (line 537). -/
def snapshotMsg (filename : String) : String := "Snapshot saved: " ++ filename

/-- One event of the status subsystem.  Elapsing d milliseconds fires the
single-shot timer exactly when d reaches the remaining delay; a real status
change leaves the pending timer running (nothing in the code cancels it). -/
def stepS (s : SState) : SEv → SState
  | SEv.transient m => show_temporary_status s m
  | SEv.setStatus t => { s with label := t }
  | SEv.elapse d =>
    match s.timer with
    | none => s
    | some r =>
      if r ≤ d then { reset_status s with timer := none }
      else { s with timer := some (r - d) }

/-- A sequence of status subsystem events. -/
def runS (s : SState) : List SEv → SState := List.foldl stepS s

/-! ## Concrete environments and states used by the example theorems -/

/-- Environment in which every URL opens and streams. -/
def env0 : CameraEnv :=
  { openOk := fun _ => true, firstRead := fun _ => some 7,
    width := fun _ => 640, height := fun _ => 480 }

/-- Environment in which opening always fails. -/
def envBad : CameraEnv :=
  { openOk := fun _ => false, firstRead := fun _ => none,
    width := fun _ => 0, height := fun _ => 0 }

/-- Environment in which opening succeeds but no frame can be read. -/
def envNoFrame : CameraEnv :=
  { openOk := fun _ => true, firstRead := fun _ => none,
    width := fun _ => 0, height := fun _ => 0 }

/-- A connected state, reached by a successful connect from the initial
state. -/
def connState : AppState := (connect_to_camera env0 initState "10.0.0.5").state

end Streamy

namespace Streamy

/-! ## Session bookkeeping lemmas -/

theorem okFrom_append (b : Nat) (l m : List Ev) :
    okFrom b (l ++ m) = (okFrom b l && okFrom (endBal b l) m) := by
  induction l generalizing b with
  | nil => simp [okFrom, endBal]
  | cons e r ih => cases e <;> simp [okFrom, endBal, ih, Bool.and_assoc]

theorem endBal_append (b : Nat) (l m : List Ev) :
    endBal b (l ++ m) = endBal (endBal b l) m := by
  induction l generalizing b with
  | nil => rfl
  | cons e r ih => cases e <;> simp [endBal, ih]

theorem disconnect_ok (s : AppState) :
    okFrom (camBal s) (disconnect_camera s).2 = true ∧
    endBal (camBal s) (disconnect_camera s).2 = camBal (disconnect_camera s).1 := by
  cases h : s.camera with
  | none => simp [disconnect_camera, h, okFrom, endBal, camBal]
  | some u =>
    simp [disconnect_camera, h, okFrom, endBal, camBal,
      show_no_connection_message]

theorem connect_ok (env : CameraEnv) (s : AppState) (raw : String) :
    okFrom (camBal s) (connect_to_camera env s raw).log = true ∧
    endBal (camBal s) (connect_to_camera env s raw).log
      = camBal (connect_to_camera env s raw).state := by
  unfold connect_to_camera
  by_cases he : pyStrip raw = ""
  · simp [he, okFrom, endBal]
  · rw [if_neg he]
    cases hc : s.camera with
    | none =>
      cases hopen : env.openOk (rtsp_url (pyStrip raw)) with
      | false =>
        simp [hc, hopen, okFrom, endBal, camBal]
      | true =>
        cases hread : env.firstRead (rtsp_url (pyStrip raw)) with
        | none => simp [hc, hopen, hread, okFrom, endBal, camBal]
        | some f => simp [hc, hopen, hread, okFrom, endBal, camBal]
    | some u =>
      cases hopen : env.openOk (rtsp_url (pyStrip raw)) with
      | false =>
        simp [hc, hopen, okFrom, endBal, camBal, disconnect_camera,
          show_no_connection_message]
      | true =>
        cases hread : env.firstRead (rtsp_url (pyStrip raw)) with
        | none =>
          simp [hc, hopen, hread, okFrom, endBal, camBal, disconnect_camera,
            show_no_connection_message]
        | some f =>
          simp [hc, hopen, hread, okFrom, endBal, camBal, disconnect_camera,
            show_no_connection_message]

theorem runCalls_ok (env : CameraEnv) :
    ∀ (calls : List Call) (s : AppState),
      okFrom (camBal s) (runCalls env s calls).2 = true ∧
      endBal (camBal s) (runCalls env s calls).2
        = camBal (runCalls env s calls).1 := by
  intro calls
  induction calls with
  | nil => intro s; simp [runCalls, okFrom, endBal]
  | cons c cs ih =>
    intro s
    have hstep :
        okFrom (camBal s) (applyCall env s c).2 = true ∧
        endBal (camBal s) (applyCall env s c).2
          = camBal (applyCall env s c).1 := by
      cases c with
      | connect a => exact connect_ok env s a
      | disconnect => exact disconnect_ok s
    have hmain := ih (applyCall env s c).1
    constructor
    · show okFrom (camBal s)
        ((applyCall env s c).2 ++ (runCalls env (applyCall env s c).1 cs).2)
          = true
      rw [okFrom_append, hstep.1, hstep.2, hmain.1]
      rfl
    · show endBal (camBal s)
        ((applyCall env s c).2 ++ (runCalls env (applyCall env s c).1 cs).2)
          = camBal (runCalls env (applyCall env s c).1 cs).1
      rw [endBal_append, hstep.2, hmain.2]

end Streamy

namespace Streamy

/-! ## Claim theorems: session lifecycle -/

/-- Claim C1: for every sequence of connect and disconnect calls, at most one
FrameSource is open at any time (the event log never opens while one is held
and never closes while none is held), and a connect issued while a session is
active first stops polling and releases the old FrameSource: the first two
events of such a call are the timer stop and the release, so they precede any
open. -/
theorem C1_at_most_one_session :
    (∀ (env : CameraEnv) (calls : List Call),
        okFrom 0 (runCalls env initState calls).2 = true) ∧
    (∀ (env : CameraEnv) (s : AppState) (a : String),
        s.camera.isSome = true → pyStrip a ≠ "" →
        (connect_to_camera env s a).log.take 2 = [Ev.stop, Ev.close]) := by
  constructor
  · intro env calls
    have h := (runCalls_ok env calls initState).1
    simpa [camBal, initState] using h
  · intro env s a hcam ha
    obtain ⟨u, hu⟩ := Option.isSome_iff_exists.mp hcam
    unfold connect_to_camera
    rw [if_neg ha]
    cases hopen : env.openOk (rtsp_url (pyStrip a)) with
    | false =>
      simp [hu, hopen, disconnect_camera, show_no_connection_message]
    | true =>
      cases hread : env.firstRead (rtsp_url (pyStrip a)) with
      | none => simp [hu, hopen, hread, disconnect_camera,
          show_no_connection_message]
      | some f => simp [hu, hopen, hread, disconnect_camera,
          show_no_connection_message]

/-- Witness for C1 at concrete inputs: a connect, connect, disconnect trace
keeps the log well bracketed, and a connect from a connected state starts by
stopping the timer and releasing the old source. -/
theorem C1_at_most_one_session_witness :
    okFrom 0 (runCalls env0 initState
      [Call.connect "10.0.0.5", Call.connect "10.0.0.6", Call.disconnect]).2
      = true ∧
    (connect_to_camera env0 connState "10.0.0.6").log.take 2
      = [Ev.stop, Ev.close] :=
  ⟨C1_at_most_one_session.1 env0
      [Call.connect "10.0.0.5", Call.connect "10.0.0.6", Call.disconnect],
   C1_at_most_one_session.2 env0 connState "10.0.0.6" (by decide) (by decide)⟩

/-- Claim C2 (code bug): when update_frame runs while connected and the read
fails, the code first writes the yellow degraded status and then calls
disconnect_camera, which overwrites it with the gray Not connected status.
The teardown is therefore byte-for-byte the disconnect teardown including its
final Disconnected status, and the promised Degraded status is lost. -/
theorem C2_poll_failure_ends_disconnected :
    (update_frame none "2026-02-03 10:00:00" connState).1
      = (disconnect_camera connState).1 ∧
    (update_frame none "2026-02-03 10:00:00" connState).2
      = [Ev.stop, Ev.close] ∧
    (update_frame none "2026-02-03 10:00:00" connState).1.camera = none ∧
    (update_frame none "2026-02-03 10:00:00" connState).1.is_running = false ∧
    (update_frame none "2026-02-03 10:00:00" connState).1.status_color
      = Color.gray ∧
    (update_frame none "2026-02-03 10:00:00" connState).1.status_text
      = "Not connected" ∧
    statusOf (update_frame none "2026-02-03 10:00:00" connState).1.status_color
        (update_frame none "2026-02-03 10:00:00" connState).1.status_text
      = ConnStatus.Disconnected ∧
    statusOf (update_frame none "2026-02-03 10:00:00" connState).1.status_color
        (update_frame none "2026-02-03 10:00:00" connState).1.status_text
      ≠ ConnStatus.Degraded := by
  decide

/-- Claim C8: disconnect is idempotent and, from an active session, tears
everything down, sets the gray Disconnected status, disables the snapshot
button and displays the constructed placeholder image rather than a stale or
absent one. -/
theorem C8_disconnect_idempotent :
    (∀ s : AppState, s.camera = none → disconnect_camera s = (s, [])) ∧
    (∀ s : AppState,
        (disconnect_camera (disconnect_camera s).1).1
          = (disconnect_camera s).1) ∧
    (∀ s : AppState, s.camera.isSome = true →
        (disconnect_camera s).1.is_running = false ∧
        (disconnect_camera s).1.camera = none ∧
        (disconnect_camera s).1.camera_url = none ∧
        (disconnect_camera s).1.status_color = Color.gray ∧
        (disconnect_camera s).1.status_text = "Not connected" ∧
        statusOf (disconnect_camera s).1.status_color
            (disconnect_camera s).1.status_text = ConnStatus.Disconnected ∧
        (disconnect_camera s).1.snapshot_enabled = false ∧
        (disconnect_camera s).1.displayed = some Frame.noConnImg) := by
  refine ⟨?_, ?_, ?_⟩
  · intro s h
    simp [disconnect_camera, h]
  · intro s
    cases h : s.camera with
    | none => simp [disconnect_camera, h]
    | some u => simp [disconnect_camera, h, show_no_connection_message]
  · intro s h
    obtain ⟨u, hu⟩ := Option.isSome_iff_exists.mp h
    simp [disconnect_camera, hu, show_no_connection_message, statusOf]

/-- Witness for C8 at concrete inputs: disconnecting the fresh state is a
no-op, and disconnecting a connected state yields the placeholder image and
the Disconnected classification. -/
theorem C8_disconnect_idempotent_witness :
    disconnect_camera initState = (initState, []) ∧
    (disconnect_camera connState).1.displayed = some Frame.noConnImg ∧
    statusOf (disconnect_camera connState).1.status_color
        (disconnect_camera connState).1.status_text
      = ConnStatus.Disconnected :=
  ⟨C8_disconnect_idempotent.1 initState rfl,
   (C8_disconnect_idempotent.2.2 connState (by decide)).2.2.2.2.2.2.2,
   (C8_disconnect_idempotent.2.2 connState (by decide)).2.2.2.2.2.1⟩

end Streamy

namespace Streamy

/-- Claim C3: terminal outcomes of connect with a nonempty stripped address.
Open failure yields the red Error classification, no retained session, no
open or poll-start event and no polling; open success with a failed probe
read yields the yellow Degraded classification with the source released
(balance of held sources is zero and no session retained); open plus read
success yields Connected with a held session.  The hypothesis ties the poll
timer flag to the held camera, which holds in every reachable state. -/
theorem C3_connect_terminal_status (env : CameraEnv) (s : AppState)
    (a : String) (hInv : s.is_running = s.camera.isSome) :
    (pyStrip a ≠ "" → env.openOk (rtsp_url (pyStrip a)) = false →
        statusOf (connect_to_camera env s a).state.status_color
            (connect_to_camera env s a).state.status_text = ConnStatus.Error ∧
        (connect_to_camera env s a).state.camera = none ∧
        (connect_to_camera env s a).state.is_running = false ∧
        (connect_to_camera env s a).log.count Ev.openEv = 0 ∧
        (connect_to_camera env s a).log.count Ev.start = 0) ∧
    (pyStrip a ≠ "" → env.openOk (rtsp_url (pyStrip a)) = true →
        env.firstRead (rtsp_url (pyStrip a)) = none →
        statusOf (connect_to_camera env s a).state.status_color
            (connect_to_camera env s a).state.status_text
          = ConnStatus.Degraded ∧
        (connect_to_camera env s a).state.camera = none ∧
        (connect_to_camera env s a).state.is_running = false ∧
        endBal (camBal s) (connect_to_camera env s a).log = 0) ∧
    (∀ f : Nat, pyStrip a ≠ "" → env.openOk (rtsp_url (pyStrip a)) = true →
        env.firstRead (rtsp_url (pyStrip a)) = some f →
        statusOf (connect_to_camera env s a).state.status_color
            (connect_to_camera env s a).state.status_text
          = ConnStatus.Connected ∧
        (connect_to_camera env s a).state.camera.isSome = true) := by
  refine ⟨?_, ?_, ?_⟩
  · intro ha hopen
    unfold connect_to_camera
    rw [if_neg ha]
    cases hc : s.camera with
    | none =>
      have hrun : s.is_running = false := by simp [hInv, hc]
      simp [hc, hopen, statusOf, hrun]
    | some u =>
      simp [hc, hopen, statusOf, disconnect_camera,
        show_no_connection_message]
  · intro ha hopen hread
    have h2 := (connect_ok env s a).2
    unfold connect_to_camera at h2 ⊢
    rw [if_neg ha] at h2 ⊢
    cases hc : s.camera with
    | none =>
      have hrun : s.is_running = false := by simp [hInv, hc]
      rw [hc] at h2
      simp [hopen, hread] at h2
      simp [hc, hopen, hread, statusOf, hrun]
      simpa [camBal, hc, hopen, hread] using h2
    | some u =>
      rw [hc] at h2
      simp [hopen, hread, disconnect_camera, show_no_connection_message]
        at h2
      simp [hc, hopen, hread, statusOf, disconnect_camera,
        show_no_connection_message]
      simpa [camBal, hc, hopen, hread, disconnect_camera,
        show_no_connection_message] using h2
  · intro f ha hopen hread
    unfold connect_to_camera
    rw [if_neg ha]
    cases hc : s.camera with
    | none => simp [hc, hopen, hread, statusOf]
    | some u =>
      simp [hc, hopen, hread, statusOf, disconnect_camera,
        show_no_connection_message]

/-- Witness for C3 at concrete inputs: open failure ends in Error, open with
no readable frame ends in Degraded, and full success ends in Connected. -/
theorem C3_connect_terminal_status_witness :
    statusOf (connect_to_camera envBad initState "badhost").state.status_color
        (connect_to_camera envBad initState "badhost").state.status_text
      = ConnStatus.Error ∧
    statusOf
        (connect_to_camera envNoFrame initState "host1").state.status_color
        (connect_to_camera envNoFrame initState "host1").state.status_text
      = ConnStatus.Degraded ∧
    statusOf (connect_to_camera env0 initState "host1").state.status_color
        (connect_to_camera env0 initState "host1").state.status_text
      = ConnStatus.Connected :=
  ⟨((C3_connect_terminal_status envBad initState "badhost" rfl).1
      (by decide) rfl).1,
   ((C3_connect_terminal_status envNoFrame initState "host1" rfl).2.1
      (by decide) rfl rfl).1,
   ((C3_connect_terminal_status env0 initState "host1" rfl).2.2 7
      (by decide) rfl rfl).1⟩

/-- Claim C9: connect strips the entered address first; a whitespace-only
address is rejected exactly like an empty one, with the same dialog and no
state change, and in the other branches the stripped form is what reaches
the RTSP URL, the recent list and last_used_printer. -/
theorem C9_connect_strip_whitespace (env : CameraEnv) (s : AppState)
    (a : String) :
    (pyStrip a = "" →
        connect_to_camera env s a
          = { state := s, log := [], dialog := some emptyAddrMsg } ∧
        connect_to_camera env s a = connect_to_camera env s "") ∧
    (pyStrip a ≠ "" → env.openOk (rtsp_url (pyStrip a)) = false →
        (connect_to_camera env s a).dialog
          = some (connectErrMsg (rtsp_url (pyStrip a)))) ∧
    (∀ f : Nat, pyStrip a ≠ "" → env.openOk (rtsp_url (pyStrip a)) = true →
        env.firstRead (rtsp_url (pyStrip a)) = some f →
        (connect_to_camera env s a).state.camera_url
          = some (rtsp_url (pyStrip a)) ∧
        (connect_to_camera env s a).state.recent.recent_printers.head?
          = some (pyStrip a) ∧
        (connect_to_camera env s a).state.recent.last_used_printer
          = pyStrip a) := by
  refine ⟨?_, ?_, ?_⟩
  · intro ha
    constructor
    · unfold connect_to_camera
      rw [if_pos ha]
    · unfold connect_to_camera
      rw [if_pos ha]
      have h0 : pyStrip "" = "" := rfl
      rw [if_pos h0]
  · intro ha hopen
    unfold connect_to_camera
    rw [if_neg ha]
    cases hc : s.camera with
    | none => simp [hc, hopen]
    | some u =>
      simp [hc, hopen, disconnect_camera, show_no_connection_message]
  · intro f ha hopen hread
    unfold connect_to_camera
    rw [if_neg ha]
    cases hc : s.camera with
    | none => simp [hc, hopen, hread, add_printer, ha]
    | some u =>
      simp [hc, hopen, hread, add_printer, ha, disconnect_camera,
        show_no_connection_message]

/-- Witness for C9 at concrete inputs: a whitespace-only address produces the
empty-address dialog and leaves the state unchanged, and a padded address is
stripped before building the URL and updating the recent list. -/
theorem C9_connect_strip_whitespace_witness :
    connect_to_camera env0 initState "   "
      = { state := initState, log := [], dialog := some emptyAddrMsg } ∧
    (connect_to_camera env0 initState " 10.0.0.5 ").state.camera_url
      = some "rtsp://10.0.0.5:554/video" ∧
    (connect_to_camera env0 initState " 10.0.0.5 ").state.recent.recent_printers.head?
      = some "10.0.0.5" := by
  refine ⟨?_, ?_, ?_⟩
  · exact ((C9_connect_strip_whitespace env0 initState "   ").1
      (by decide)).1
  · exact ((C9_connect_strip_whitespace env0 initState " 10.0.0.5 ").2.2 7
      (by decide) rfl rfl).1
  · exact ((C9_connect_strip_whitespace env0 initState " 10.0.0.5 ").2.2 7
      (by decide) rfl rfl).2.1

end Streamy

namespace Streamy

/-! ## Recent list lemmas and claim C5 -/

theorem add_printer_recent_eq (c : RecentConfig) (a : String) (ha : a ≠ "") :
    (add_printer c a).recent_printers
      = (a :: c.recent_printers.erase a).take 5 := by
  unfold add_printer
  rw [if_neg ha]
  by_cases hm : a ∈ c.recent_printers
  · simp [hm]
  · simp [hm, List.erase_of_not_mem hm]

/-- Claim C5: add_printer ignores the empty address; otherwise it sets
last_used_printer, puts the address first, keeps at most five entries and
leaves the timestamp preference alone.  On a duplicate-free list it behaves
as removing every equal entry before inserting, and keeps the list
duplicate-free.  The two concrete scenarios of the claim follow: re-adding
10.0.0.5 after 10.0.0.6 moves it to the front without duplication, and a
sixth distinct address drops the oldest entry, keeping exactly five. -/
theorem C5_add_printer_recent_list (c : RecentConfig) (a : String) :
    (add_printer c "" = c) ∧
    (a ≠ "" →
        (add_printer c a).last_used_printer = a ∧
        (add_printer c a).recent_printers.head? = some a ∧
        (add_printer c a).recent_printers.length ≤ 5 ∧
        (add_printer c a).include_timestamp = c.include_timestamp) ∧
    (a ≠ "" → c.recent_printers.Nodup →
        (add_printer c a).recent_printers
          = (a :: c.recent_printers.filter (fun x => x != a)).take 5 ∧
        (add_printer c a).recent_printers.Nodup) ∧
    (add_printer (add_printer (add_printer
        { recent_printers := [], last_used_printer := "",
          include_timestamp := true } "10.0.0.5") "10.0.0.6") "10.0.0.5"
      = { recent_printers := ["10.0.0.5", "10.0.0.6"],
          last_used_printer := "10.0.0.5", include_timestamp := true }) ∧
    ((add_printer (add_printer (add_printer (add_printer (add_printer
        (add_printer
          { recent_printers := [], last_used_printer := "",
            include_timestamp := true } "h1") "h2") "h3") "h4") "h5")
        "h6").recent_printers = ["h6", "h5", "h4", "h3", "h2"]) := by
  refine ⟨?_, ?_, ?_, ?_, ?_⟩
  · simp [add_printer]
  · intro ha
    refine ⟨?_, ?_, ?_, ?_⟩
    · unfold add_printer
      rw [if_neg ha]
    · rw [add_printer_recent_eq c a ha]
      simp [List.take_succ_cons]
    · rw [add_printer_recent_eq c a ha, List.length_take]
      exact Nat.min_le_left _ _
    · unfold add_printer
      rw [if_neg ha]
  · intro ha hnd
    constructor
    · rw [add_printer_recent_eq c a ha, hnd.erase_eq_filter a]
    · rw [add_printer_recent_eq c a ha]
      have h1 : (a :: c.recent_printers.erase a).Nodup :=
        List.nodup_cons.mpr ⟨hnd.not_mem_erase, hnd.erase a⟩
      exact (List.take_sublist 5 _).nodup h1
  · decide
  · decide

/-- Witness for C5 at concrete inputs: a re-added address moves to the front
of a duplicate-free list and the result stays duplicate-free. -/
theorem C5_add_printer_recent_list_witness :
    (add_printer ⟨["p1", "p2"], "p1", true⟩ "p2").recent_printers
      = ("p2" :: (["p1", "p2"].filter (fun x => x != "p2"))).take 5 ∧
    (add_printer ⟨["p1", "p2"], "p1", true⟩ "p2").recent_printers.Nodup :=
  (C5_add_printer_recent_list ⟨["p1", "p2"], "p1", true⟩ "p2").2.2.1
    (by decide) (by decide)

end Streamy

namespace Streamy

/-! ## Config document lemmas and claims C6, C10 -/

theorem getVal_append_of_isSome (d e : Dict) (k : String)
    (h : (getVal d k).isSome = true) : getVal (d ++ e) k = getVal d k := by
  induction d with
  | nil => simp [getVal] at h
  | cons p ps ih =>
    obtain ⟨k2, v⟩ := p
    by_cases hk : k2 = k
    · simp [getVal, hk]
    · simp [getVal, hk] at h ⊢
      exact ih h

theorem getVal_append_of_none (d e : Dict) (k : String)
    (h : getVal d k = none) : getVal (d ++ e) k = getVal e k := by
  induction d with
  | nil => simp [getVal]
  | cons p ps ih =>
    obtain ⟨k2, v⟩ := p
    by_cases hk : k2 = k
    · simp [getVal, hk] at h
    · simp [getVal, hk] at h ⊢
      exact ih h

theorem getVal_ensure_present (c : Dict) (kv : String × JValue) (k : String)
    (h : (getVal c k).isSome = true) :
    getVal (ensureKey c kv) k = getVal c k := by
  unfold ensureKey
  by_cases hk : hasKey c kv.1
  · simp [hk]
  · simp [hk, getVal_append_of_isSome c [kv] k h]

theorem getVal_ensure_missing_same (c : Dict) (k : String) (v : JValue)
    (h : getVal c k = none) : getVal (ensureKey c (k, v)) k = some v := by
  unfold ensureKey
  have hk : hasKey c k = false := by simp [hasKey, h]
  simp [hk, getVal_append_of_none c [(k, v)] k h, getVal]

theorem getVal_ensure_missing_other (c : Dict) (kv : String × JValue)
    (k : String) (h : getVal c k = none) (hne : kv.1 ≠ k) :
    getVal (ensureKey c kv) k = none := by
  unfold ensureKey
  by_cases hk : hasKey c kv.1
  · simp [hk, h]
  · simp [hk, getVal_append_of_none c [kv] k h, getVal, hne]

theorem load_backfill_eq (d : Dict) :
    load_backfill d
      = ensureKey (ensureKey (ensureKey d ("recent_printers", JValue.jstrs []))
          ("last_used_printer", JValue.jstr ""))
          ("include_timestamp", JValue.jbool true) := rfl

/-- Back-filling preserves the binding of every key the document already
has. -/
theorem getVal_backfill_present (d : Dict) (k : String)
    (h : (getVal d k).isSome = true) :
    getVal (load_backfill d) k = getVal d k := by
  rw [load_backfill_eq]
  have e1 := getVal_ensure_present d ("recent_printers", JValue.jstrs []) k h
  have s1 : (getVal (ensureKey d ("recent_printers", JValue.jstrs [])) k).isSome
      = true := by rw [e1]; exact h
  have e2 := getVal_ensure_present _ ("last_used_printer", JValue.jstr "") k s1
  have s2 : (getVal (ensureKey (ensureKey d ("recent_printers", JValue.jstrs []))
      ("last_used_printer", JValue.jstr "")) k).isSome = true := by
    rw [e2]; exact s1
  have e3 := getVal_ensure_present _ ("include_timestamp", JValue.jbool true) k s2
  rw [e3, e2, e1]

/-- Back-filling leaves every key outside the schema unchanged. -/
theorem getVal_backfill_non_schema (d : Dict) (k : String)
    (hk : k ∉ schemaKeys) : getVal (load_backfill d) k = getVal d k := by
  have h1 : k ≠ "recent_printers" := by
    intro h; exact hk (by simp [schemaKeys, h])
  have h2 : k ≠ "last_used_printer" := by
    intro h; exact hk (by simp [schemaKeys, h])
  have h3 : k ≠ "include_timestamp" := by
    intro h; exact hk (by simp [schemaKeys, h])
  cases hg : getVal d k with
  | some v =>
    have hp := getVal_backfill_present d k (by rw [hg]; rfl)
    rw [hg] at hp
    exact hp
  | none =>
    rw [load_backfill_eq]
    have e1 := getVal_ensure_missing_other d
      ("recent_printers", JValue.jstrs []) k hg (fun h => h1 h.symm)
    have e2 := getVal_ensure_missing_other _
      ("last_used_printer", JValue.jstr "") k e1 (fun h => h2 h.symm)
    have e3 := getVal_ensure_missing_other _
      ("include_timestamp", JValue.jbool true) k e2 (fun h => h3 h.symm)
    rw [e3]

/-- Claim C6: load_config is total (the model returns a document in every
case, mirroring the caught exceptions): a missing or unparseable file yields
the full defaults with the empty recent list, the empty last used address
and the timestamp preference enabled; a parsed document keeps every key it
has and gets exactly the missing schema keys back-filled from the defaults,
while keys outside the schema are not invented. -/
theorem C6_load_config_defaults (d : Dict) (k : String) :
    (load_config none = default_config) ∧
    (load_config (some none) = default_config) ∧
    (getVal default_config "recent_printers" = some (JValue.jstrs []) ∧
     getVal default_config "last_used_printer" = some (JValue.jstr "") ∧
     getVal default_config "include_timestamp" = some (JValue.jbool true)) ∧
    (hasKey d k = true →
        getVal (load_config (some (some d))) k = getVal d k) ∧
    (k ∈ schemaKeys → hasKey d k = false →
        getVal (load_config (some (some d))) k = getVal default_config k) ∧
    (k ∉ schemaKeys → hasKey d k = false →
        getVal (load_config (some (some d))) k = none) := by
  refine ⟨rfl, rfl, ⟨rfl, rfl, rfl⟩, ?_, ?_, ?_⟩
  · intro h
    exact getVal_backfill_present d k (by simpa [hasKey] using h)
  · intro hk h
    have hnone : getVal d k = none := by
      cases hg : getVal d k with
      | none => rfl
      | some v => rw [hasKey, hg] at h; simp at h
    simp only [schemaKeys, List.mem_cons, List.not_mem_nil, or_false] at hk
    show getVal (load_backfill d) k = getVal default_config k
    rw [load_backfill_eq]
    rcases hk with hk | hk | hk
    all_goals subst hk
    · have e1 := getVal_ensure_missing_same d "recent_printers"
        (JValue.jstrs []) hnone
      have s1 : (getVal (ensureKey d ("recent_printers", JValue.jstrs []))
          "recent_printers").isSome = true := by rw [e1]; rfl
      have e2 := getVal_ensure_present _ ("last_used_printer", JValue.jstr "")
        _ s1
      have s2 : (getVal (ensureKey (ensureKey d
          ("recent_printers", JValue.jstrs []))
          ("last_used_printer", JValue.jstr "")) "recent_printers").isSome
          = true := by rw [e2]; exact s1
      have e3 := getVal_ensure_present _ ("include_timestamp", JValue.jbool true)
        _ s2
      rw [e3, e2, e1]; rfl
    · have e1 := getVal_ensure_missing_other d
        ("recent_printers", JValue.jstrs []) "last_used_printer" hnone
        (by decide)
      have e2 := getVal_ensure_missing_same _ "last_used_printer"
        (JValue.jstr "") e1
      have s2 : (getVal (ensureKey (ensureKey d
          ("recent_printers", JValue.jstrs []))
          ("last_used_printer", JValue.jstr "")) "last_used_printer").isSome
          = true := by rw [e2]; rfl
      have e3 := getVal_ensure_present _ ("include_timestamp", JValue.jbool true)
        _ s2
      rw [e3, e2]; rfl
    · have e1 := getVal_ensure_missing_other d
        ("recent_printers", JValue.jstrs []) "include_timestamp" hnone
        (by decide)
      have e2 := getVal_ensure_missing_other _
        ("last_used_printer", JValue.jstr "") "include_timestamp" e1
        (by decide)
      have e3 := getVal_ensure_missing_same _ "include_timestamp"
        (JValue.jbool true) e2
      rw [e3]; rfl
  · intro hk h
    have hnone : getVal d k = none := by
      cases hg : getVal d k with
      | none => rfl
      | some v => rw [hasKey, hg] at h; simp at h
    show getVal (load_backfill d) k = none
    rw [getVal_backfill_non_schema d k hk]
    exact hnone

/-- Witness for C6 at a concrete partial document with an unknown key: the
present schema key keeps its value, the absent schema key is back-filled
with its default, and no binding is invented for an unknown absent key. -/
theorem C6_load_config_defaults_witness :
    getVal (load_config (some (some
        [("extra", JValue.jnum 5), ("last_used_printer", JValue.jstr "h9")])))
      "last_used_printer" = some (JValue.jstr "h9") ∧
    getVal (load_config (some (some
        [("extra", JValue.jnum 5), ("last_used_printer", JValue.jstr "h9")])))
      "recent_printers" = some (JValue.jstrs []) ∧
    getVal (load_config (some (some
        [("extra", JValue.jnum 5), ("last_used_printer", JValue.jstr "h9")])))
      "other" = none := by
  refine ⟨?_, ?_, ?_⟩
  · exact (C6_load_config_defaults
      [("extra", JValue.jnum 5), ("last_used_printer", JValue.jstr "h9")]
      "last_used_printer").2.2.2.1 (by decide)
  · exact (C6_load_config_defaults
      [("extra", JValue.jnum 5), ("last_used_printer", JValue.jstr "h9")]
      "recent_printers").2.2.2.2.1 (by decide) (by decide)
  · exact (C6_load_config_defaults
      [("extra", JValue.jnum 5), ("last_used_printer", JValue.jstr "h9")]
      "other").2.2.2.2.2 (by decide) (by decide)

/-- Claim C10: loading keeps every key of a parseable document (unknown keys
included), saving serializes the whole in-memory record, and a load followed
by a save leaves every key outside the schema bound exactly as in the
original file. -/
theorem C10_unknown_keys_preserved (d : Dict) (k : String) :
    (hasKey d k = true →
        getVal (load_config (some (some d))) k = getVal d k) ∧
    (∀ c : Dict, save_config c = some (some c)) ∧
    (k ∉ schemaKeys →
        getVal (load_config (save_config (load_config (some (some d))))) k
          = getVal d k) := by
  refine ⟨?_, fun c => rfl, ?_⟩
  · intro h
    exact getVal_backfill_present d k (by simpa [hasKey] using h)
  · intro hk
    show getVal (load_backfill (load_backfill d)) k = getVal d k
    rw [getVal_backfill_non_schema _ k hk, getVal_backfill_non_schema _ k hk]

/-- Witness for C10 at a concrete document: the unknown key extra survives a
load plus save round trip with its original value. -/
theorem C10_unknown_keys_preserved_witness :
    getVal (load_config (save_config (load_config (some (some
        [("extra", JValue.jnum 5), ("last_used_printer", JValue.jstr "h9")])))))
      "extra" = some (JValue.jnum 5) := by
  exact (C10_unknown_keys_preserved
      [("extra", JValue.jnum 5), ("last_used_printer", JValue.jstr "h9")]
      "extra").2.2 (by decide)

end Streamy

namespace Streamy

/-! ## Snapshot naming lemmas and claim C4 -/

theorem numbers_eq_spec (files : List String)
    (h : ∀ f ∈ files, wfFile f) :
    (files.filter globMatch).filterMap (fun f => reSearch f.data)
      = files.filterMap specFileNumber := by
  induction files with
  | nil => rfl
  | cons f fs ih =>
    have hf := h f (List.mem_cons_self f fs)
    have hfs : ∀ g ∈ fs, wfFile g := fun g hg =>
      h g (List.mem_cons_of_mem f hg)
    unfold wfFile at hf
    by_cases hg : globMatch f = true
    · rw [if_pos hg] at hf
      cases hr : reSearch f.data with
      | none =>
        rw [hr] at hf
        simp [List.filter_cons, hg, List.filterMap_cons, hr, ← hf, ih hfs]
      | some n =>
        rw [hr] at hf
        simp [List.filter_cons, hg, List.filterMap_cons, hr, ← hf, ih hfs]
    · rw [if_neg hg] at hf
      have hg2 : globMatch f = false := by
        cases hb : globMatch f
        · rfl
        · exact absurd hb hg
      simp [List.filter_cons, hg2, List.filterMap_cons, ← hf, ih hfs]

theorem next_eq_specNext (files : List String)
    (h : ∀ f ∈ files, wfFile f) :
    get_next_snapshot_number files = specNextIndex files := by
  unfold get_next_snapshot_number specNextIndex
  rw [← numbers_eq_spec files h]
  by_cases he : files.filter globMatch = []
  · simp [he]
  · simp [he]

/-- Claim C4: the next snapshot name.  The concrete cases of the claim hold
(empty directory gives streamy-0001.png; the pair 0001, 0003 gives
streamy-0004.png; a non-numeric streamy-abc.png never affects the result);
the emitted name is streamy- plus the 04d-padded index plus .png, where the
04d padding only ever prepends zeros up to width four and never truncates,
so indices of five or more digits widen; and on directories whose
glob-selected entries are exactly the full-form streamy-<digits>.png names
(plus arbitrary non-matching files), the code index coincides with the claim
reading: one when nothing matches, otherwise the maximal parsed number plus
one. -/
theorem C4_snapshot_naming :
    snapshot_filename [] = "streamy-0001.png" ∧
    snapshot_filename ["streamy-0001.png", "streamy-0003.png"]
      = "streamy-0004.png" ∧
    (∀ files : List String,
        get_next_snapshot_number ("streamy-abc.png" :: files)
          = get_next_snapshot_number files) ∧
    (∀ n : Nat,
        pad4 n
          = String.mk (List.replicate (4 - (toString n).length) '0'
              ++ (toString n).data) ∧
        (pad4 n).length = max 4 (toString n).length) ∧
    pad4 12345 = "12345" ∧
    (∀ files : List String, (∀ f ∈ files, wfFile f) →
        get_next_snapshot_number files = specNextIndex files) ∧
    (∀ files : List String,
        snapshot_filename files
          = "streamy-" ++ pad4 (get_next_snapshot_number files) ++ ".png") := by
  refine ⟨by decide, by decide, ?_, ?_, by decide, ?_, fun files => rfl⟩
  · intro files
    have hglob : globMatch "streamy-abc.png" = true := by decide
    have hsearch : reSearch ("streamy-abc.png").data = none := by decide
    unfold get_next_snapshot_number
    by_cases he : files.filter globMatch = []
    · simp [List.filter_cons, hglob, List.filterMap_cons, hsearch, he]
    · simp [List.filter_cons, hglob, List.filterMap_cons, hsearch, he]
  · intro n
    constructor
    · unfold pad4
      by_cases h : (toString n).length < 4
      · rw [if_pos h]
        cases hs : toString n with
        | mk l => rfl
      · rw [if_neg h]
        have h4 : 4 - (toString n).length = 0 := by omega
        rw [h4]
        cases hs : toString n with
        | mk l => rfl
    · unfold pad4
      by_cases h : (toString n).length < 4
      · rw [if_pos h]
        cases hs : toString n with
        | mk l =>
          have hl : l.length < 4 := by
            have := h
            rw [hs] at this
            simpa [String.length] using this
          show (String.mk (List.replicate (4 - l.length) '0' ++ l)).length = _
          simp [String.length, List.length_append, List.length_replicate]
          omega
      · rw [if_neg h]
        have hl : 4 ≤ (toString n).length := by omega
        omega
  · exact next_eq_specNext

/-- Witness for C4 at a concrete directory listing: with the two numbered
files and one non-numeric file present, the code and the claim reading agree
on the next index, which is four. -/
theorem C4_snapshot_naming_witness :
    get_next_snapshot_number
        ["streamy-0001.png", "streamy-0003.png", "streamy-abc.png"]
      = specNextIndex
        ["streamy-0001.png", "streamy-0003.png", "streamy-abc.png"] ∧
    get_next_snapshot_number
        ["streamy-0001.png", "streamy-0003.png", "streamy-abc.png"] = 4 :=
  ⟨C4_snapshot_naming.2.2.2.2.2.1
      ["streamy-0001.png", "streamy-0003.png", "streamy-abc.png"]
      (by decide),
   by decide⟩

end Streamy

namespace Streamy

/-! ## Claim C7: the transient status message -/

/-- Counterexample to claim C7 as stated.  Scenario: the label shows
Connected, a snapshot posts the transient message, then a real status change
writes Not connected (exactly what disconnect or a failed poll does; neither
touches status_timer), and the 5000 ms delay elapses.  The claim says the
real status change supersedes the pending revert, so the label should still
read Not connected; in the code the timer fires anyway and reset_status
overwrites the label with the captured previous status Connected. -/
theorem C7_transient_status_counterexample :
    (runS { label := "Connected", previous := "Not connected", timer := none }
        [SEv.transient (snapshotMsg "streamy-0001.png"),
         SEv.setStatus "Not connected", SEv.elapse 5000]).label
      = "Connected" ∧
    (runS { label := "Connected", previous := "Not connected", timer := none }
        [SEv.transient (snapshotMsg "streamy-0001.png"),
         SEv.setStatus "Not connected", SEv.elapse 5000]).label
      ≠ "Not connected" := by
  decide

/-- Claim C7 as amended: after a successful snapshot the label shows
Snapshot saved: <name>, the pre-snapshot label is captured as the revert
target and the 5000 ms single shot is (re)started; with no intervening
events the label reverts to the captured status when the delay elapses; a
newer transient message restarts the timer and recaptures the then-current
label as the new revert target (transient messages do not stack); but a real
status change in the interim does NOT supersede the pending revert: the
timer still fires and overwrites the label with the status captured when the
latest transient message started. -/
theorem C7_transient_status_revert (s : SState) (name m m1 m2 r : String)
    (d : Nat) :
    (stepS s (SEv.transient (snapshotMsg name))
      = { label := snapshotMsg name, previous := s.label,
          timer := some 5000 }) ∧
    (s.label ≠ "" →
        runS s [SEv.transient m, SEv.elapse 5000]
          = { label := s.label, previous := s.label, timer := none }) ∧
    (d < 5000 →
        runS s [SEv.transient m1, SEv.elapse d, SEv.transient m2]
          = { label := m2, previous := m1, timer := some 5000 }) ∧
    (s.label ≠ "" →
        runS s [SEv.transient m, SEv.setStatus r, SEv.elapse 5000]
          = { label := s.label, previous := s.label, timer := none }) := by
  refine ⟨rfl, ?_, ?_, ?_⟩
  · intro h
    simp [runS, stepS, show_temporary_status, reset_status, h]
  · intro hd
    have h5 : ¬ (5000 ≤ d) := by omega
    simp [runS, stepS, show_temporary_status, h5]
  · intro h
    simp [runS, stepS, show_temporary_status, reset_status, h]

/-- Witness for C7 at concrete inputs: from the Connected label, the
snapshot message reverts to Connected after the delay, and a second
transient message within the delay recaptures the first as revert target. -/
theorem C7_transient_status_revert_witness :
    runS { label := "Connected", previous := "", timer := none }
        [SEv.transient "Snapshot saved: streamy-0001.png", SEv.elapse 5000]
      = { label := "Connected", previous := "Connected", timer := none } ∧
    runS { label := "Connected", previous := "", timer := none }
        [SEv.transient "m1", SEv.elapse 100, SEv.transient "m2"]
      = { label := "m2", previous := "m1", timer := some 5000 } :=
  ⟨(C7_transient_status_revert
      { label := "Connected", previous := "", timer := none }
      "x" "Snapshot saved: streamy-0001.png" "m1" "m2" "r" 100).2.1
      (by decide),
   (C7_transient_status_revert
      { label := "Connected", previous := "", timer := none }
      "x" "m" "m1" "m2" "r" 100).2.2.1 (by decide)⟩

end Streamy
